import Mathlib

/-!
Verification of the optimistic rating-update and search-suggestion logic of
the music-recommendation frontend.

The embedding follows the TypeScript source:
* `Song` from `src/types/index.ts` (numeric audio features as exact
  rationals, `user_rating?` as an `Option`);
* `calculateNewAverage` and the optimistic count/fan-out of
  `handleRatingChange` from `src/components/StarRating.tsx`;
* `updateSongRating` from `src/hooks/useSongs.ts`;
* `updateSearchResult` from `src/hooks/useSearch.ts`;
* the validation and result handling of `rating` from `src/hooks/useRating.ts`;
* `handleRatingSuccess` from `src/components/SearchBar.tsx`, whose
  `onRatingUpdate` callback is wired to `updateSongRating`
  (`handleGlobalRatingUpdate` in the dashboard component);
* the suggestion `useEffect` of `src/components/SearchBar.tsx` as a small
  event machine over dispatch/resolve events of suggestion lookups.

JavaScript numbers are modelled as exact rationals: the claims under test are
about the exact arithmetic of the formulas, and every concrete input used
below is exactly representable.
-/

namespace MusicRec

/-- The `Song` record of `src/types/index.ts`.  `user_rating?: number` is an
optional field, hence `Option ℚ`; `updated_at : string | null` is an
`Option String`. -/
structure Song where
  index : ℕ
  id : String
  title : String
  danceability : ℚ
  energy : ℚ
  key : ℤ
  loudness : ℚ
  mode : ℤ
  acousticness : ℚ
  instrumentalness : ℚ
  liveness : ℚ
  valence : ℚ
  tempo : ℚ
  duration_ms : ℚ
  time_signature : ℤ
  num_bars : ℕ
  num_sections : ℕ
  num_segments : ℕ
  class_label : ℤ
  user_rating : Option ℚ
  average_rating : ℚ
  rating_count : ℕ
  created_at : String
  updated_at : Option String
  deriving Repr, DecidableEq

/-- `calculateNewAverage` from `StarRating.tsx` (lines 39-51): if
`oldCount === 0` return `newUserRating`; else if `oldUserRating === 0`
return `((oldAverage * oldCount) + newUserRating) / (oldCount + 1)`;
else return `((oldAverage * oldCount) - oldUserRating + newUserRating) / oldCount`. -/
def calculateNewAverage (oldAverage : ℚ) (oldCount : ℕ)
    (oldUserRating newUserRating : ℚ) : ℚ :=
  if oldCount = 0 then
    newUserRating
  else if oldUserRating = 0 then
    ((oldAverage * oldCount) + newUserRating) / (oldCount + 1)
  else
    ((oldAverage * oldCount) - oldUserRating + newUserRating) / oldCount

/-- The optimistic count computed inline in `handleRatingChange`
(`StarRating.tsx` lines 64-65):
`const wasFirstRating = currentRating === 0;`
`const newCount = wasFirstRating ? ratingCount + 1 : ratingCount;`. -/
def optimisticNewCount (currentRating : ℚ) (ratingCount : ℕ) : ℕ :=
  if currentRating = 0 then ratingCount + 1 else ratingCount

/-- The per-song update lambda inside `updateSongRating`
(`useSongs.ts` lines 108-118): `song.id === songId` spreads the song and
overwrites exactly `user_rating`, `average_rating`, `rating_count`;
any other song is returned unchanged. -/
def applyRatingToSong (songId : String) (newUserRating newAverage : ℚ)
    (newCount : ℕ) (song : Song) : Song :=
  if song.id = songId then
    { song with
        user_rating := some newUserRating
        average_rating := newAverage
        rating_count := newCount }
  else song

/-- `updateSongInArray` from `useSongs.ts` (lines 108-118): maps the
per-song update over a songs array. -/
def updateSongInArray (songId : String) (newUserRating newAverage : ℚ)
    (newCount : ℕ) (songsArray : List Song) : List Song :=
  songsArray.map (applyRatingToSong songId newUserRating newAverage newCount)

/-- The two lists held by `useSongs`: `rawSongs` (raw fetch order) and
`songs` (sorted for display). -/
structure SongsState where
  rawSongs : List Song
  songs : List Song
  deriving Repr, DecidableEq

/-- `updateSongRating` from `useSongs.ts` (lines 107-123): applies
`updateSongInArray` to both the raw and the sorted list. -/
def updateSongRating (songId : String) (newUserRating newAverage : ℚ)
    (newCount : ℕ) (st : SongsState) : SongsState :=
  { rawSongs := updateSongInArray songId newUserRating newAverage newCount st.rawSongs
    songs := updateSongInArray songId newUserRating newAverage newCount st.songs }

/-- `updateSearchResult` from `useSearch.ts` (lines 209-221): if a search
result is held and its id matches, overwrite exactly the three rating
fields; otherwise return the previous result unchanged. -/
def updateSearchResult (songId : String) (newUserRating newAverage : ℚ)
    (newCount : ℕ) (prevResult : Option Song) : Option Song :=
  match prevResult with
  | some prev =>
      if prev.id = songId then
        some { prev with
                 user_rating := some newUserRating
                 average_rating := newAverage
                 rating_count := newCount }
      else some prev
  | none => none

/-- The client-held views relevant to rating propagation: the paginated
table (`useSongs`) and the current search result (`useSearch`). -/
structure ViewsState where
  table : SongsState
  searchResult : Option Song
  deriving Repr, DecidableEq

/-- `handleRatingSuccess` from `SearchBar.tsx` (lines 452-460): calls
`updateSearchResult` and then `onRatingUpdate`, which the dashboard wires
to `updateSongRating` (`handleGlobalRatingUpdate` in `ScatterChart.tsx`). -/
def handleRatingSuccess (songId : String) (newUserRating newAverage : ℚ)
    (newCount : ℕ) (st : ViewsState) : ViewsState :=
  { table := updateSongRating songId newUserRating newAverage newCount st.table
    searchResult := updateSearchResult songId newUserRating newAverage newCount st.searchResult }

/-- Outcome of the awaited `ApiService.rateSong` call in `useRating.ts`:
it resolves with a response that has a `rating` field (`ok`), resolves
with a malformed response (`invalidResponse`), or throws (`failure`,
carrying the optional `ApiError.detail`). -/
inductive RemoteOutcome where
  | ok
  | invalidResponse
  | failure (detail : Option String)
  deriving Repr, DecidableEq

/-- Observable result of one invocation of `rating` from `useRating.ts`:
the returned boolean, the final `ratingError` state, and the remote
`POST /songs/id/rate` call actually issued (with its arguments), `none`
when the call was never made. -/
structure RatingCallResult where
  success : Bool
  ratingError : Option String
  remoteCall : Option (String × ℚ)
  deriving Repr, DecidableEq

/-- `rating` from `useRating.ts` (lines 124-150): rejects with
`'Rating must be between 0 and 5'` when `ratingValue < 0 || ratingValue > 5`
without issuing the remote call; otherwise issues
`ApiService.rateSong(songId, ratingValue)` and maps its outcome. -/
def ratingCall (songId : String) (ratingValue : ℚ)
    (outcome : RemoteOutcome) : RatingCallResult :=
  if ratingValue < 0 ∨ ratingValue > 5 then
    { success := false
      ratingError := some "Rating must be between 0 and 5"
      remoteCall := none }
  else
    match outcome with
    | .ok =>
        { success := true, ratingError := none, remoteCall := some (songId, ratingValue) }
    | .invalidResponse =>
        { success := false
          ratingError := some "Invalid response from server"
          remoteCall := some (songId, ratingValue) }
    | .failure detail =>
        { success := false
          ratingError := some (detail.getD "Failed to rate song")
          remoteCall := some (songId, ratingValue) }

/-- Result of one run of the `handleRatingChange` pipeline: the final view
state and, when the early guards did not return, the result of the
`rating` call. -/
structure PipelineResult where
  views : ViewsState
  call : Option RatingCallResult
  deriving Repr, DecidableEq

/-- `handleRatingChange` from `StarRating.tsx` (lines 53-90), composed with
the `onRatingSuccess` fan-out (`handleRatingSuccess`): after the
readOnly/null/isUpdating and signed-in guards, it computes the optimistic
`newCount` and `newAverage`, synchronously pushes them to every held view,
and only then awaits `rating(songId, newValue)`; no path writes the views
again afterwards (failures are only logged). -/
def handleRatingChange (readOnly userSignedIn isUpdating : Bool)
    (songId : String) (currentRating averageRating : ℚ) (ratingCount : ℕ)
    (newValue : Option ℚ) (st : ViewsState) (outcome : RemoteOutcome) :
    PipelineResult :=
  match newValue with
  | none => { views := st, call := none }
  | some v =>
      if readOnly || isUpdating then { views := st, call := none }
      else if !userSignedIn then { views := st, call := none }
      else
        let newCount := optimisticNewCount currentRating ratingCount
        let newAverage := calculateNewAverage averageRating ratingCount currentRating v
        { views := handleRatingSuccess songId v newAverage newCount st
          call := some (ratingCall songId v outcome) }

/-- An asynchronous event of the suggestion `useEffect` in `SearchBar.tsx`
(lines 350-383): `dispatch q` is the debounce timer for input `q` firing
and starting `smartSearch(q)`; `resolve q results` is that lookup settling
with the songs `smartSearch` found for `q`. -/
inductive SugEvent where
  | dispatch (q : String)
  | resolve (q : String) (results : List Song)
  deriving Repr, DecidableEq

/-- The suggestion-related state of `SearchBar.tsx`: the current input, the
queries whose `smartSearch` lookups are still in flight, and the
`searchSuggestions` list being displayed. -/
structure SugState where
  searchTerm : String
  pendingLookups : List String
  searchSuggestions : List Song
  deriving Repr, DecidableEq

/-- The resolution continuation of the suggestion effect
(`SearchBar.tsx` lines 372-373): `setSearchSuggestions(results.slice(0, 5))`.
The write is unconditional — the source has no check that the resolved
lookup still matches the current input. -/
def onSuggestionsResolved (results : List Song) (st : SugState) : SugState :=
  { st with searchSuggestions := results.take 5 }

/-- One step of the suggestion machine.  A `dispatch` records the new input
and the in-flight lookup (the effect cleanup only clears a timer that has
not yet fired, never an in-flight `smartSearch`, so a dispatched lookup
always resolves later).  A `resolve` of a pending lookup runs
`onSuggestionsResolved` on its results. -/
def sugStep (st : SugState) : SugEvent → SugState
  | .dispatch q =>
      { st with searchTerm := q, pendingLookups := st.pendingLookups ++ [q] }
  | .resolve q results =>
      if q ∈ st.pendingLookups then
        { onSuggestionsResolved results st with
            pendingLookups := st.pendingLookups.erase q }
      else st

/-- Running the suggestion machine over a trace of events. -/
def sugRun (st : SugState) (events : List SugEvent) : SugState :=
  events.foldl sugStep st

/-- A concrete song with the given id, title and rating fields; the audio
features take fixed representative values. -/
def mkSong (id title : String) (userRating : Option ℚ)
    (averageRating : ℚ) (ratingCount : ℕ) : Song :=
  { index := 0
    id := id
    title := title
    danceability := 1
    energy := 1
    key := 5
    loudness := -6
    mode := 1
    acousticness := 0
    instrumentalness := 0
    liveness := 0
    valence := 1
    tempo := 120
    duration_ms := 200000
    time_signature := 4
    num_bars := 100
    num_sections := 8
    num_segments := 600
    class_label := 1
    user_rating := userRating
    average_rating := averageRating
    rating_count := ratingCount
    created_at := "2024-01-01"
    updated_at := none }

/-- A table row: song "s1", not yet rated by the user, community average 4
from 2 ratings. -/
def song1 : Song := mkSong "s1" "Cold" none 4 2

/-- A second table row with a different id. -/
def song2 : Song := mkSong "s2" "21 Guns" (some 3) 3 4

/-- A song with no ratings yet (`average_rating = 0`, `rating_count = 0`). -/
def song3 : Song := mkSong "s3" "3AM" none 0 0

/-- A concrete view state holding `song1` both as a table row (raw and
sorted) and as the current search result, plus the unrelated `song2`. -/
def views0 : ViewsState :=
  { table := { rawSongs := [song1, song2], songs := [song2, song1] }
    searchResult := some song1 }

/-- A concrete view state holding the unrated `song3` as the only table row
and as the current search result. -/
def views1 : ViewsState :=
  { table := { rawSongs := [song3], songs := [song3] }
    searchResult := some song3 }

/-- C2: for every input with `oldUserRating == 0` and `oldCount > 0` and
`newUserRating` in the valid range, the optimistic recompute returns
`newAverage = ((oldAverage * oldCount) + newUserRating) / (oldCount + 1)`
and `newCount = oldCount + 1`. -/
theorem c2_recompute_first_rating_nonzero_count (oldAverage : ℚ) (oldCount : ℕ)
    (newUserRating : ℚ) (hc : 0 < oldCount)
    (hlo : 1/2 ≤ newUserRating) (hhi : newUserRating ≤ 5) :
    calculateNewAverage oldAverage oldCount 0 newUserRating
        = ((oldAverage * oldCount) + newUserRating) / (oldCount + 1)
      ∧ optimisticNewCount 0 oldCount = oldCount + 1 := by
  constructor
  · unfold calculateNewAverage
    rw [if_neg (Nat.pos_iff_ne_zero.mp hc), if_pos rfl]
  · unfold optimisticNewCount
    rw [if_pos rfl]

/-- Witness for C2 at the spec's own example `(4, 2, 0, 5)`:
the recompute gives average `13/3 = 4.33…` and count `3`. -/
theorem c2_witness :
    calculateNewAverage 4 2 0 5 = 13/3 ∧ optimisticNewCount 0 2 = 3 := by
  have h := c2_recompute_first_rating_nonzero_count 4 2 5 (by norm_num)
    (by norm_num) (by norm_num)
  refine ⟨?_, h.2⟩
  rw [h.1]
  norm_num

/-- C3: for every input with `oldUserRating > 0` and `oldCount >= 1`, the
optimistic recompute returns `newCount = oldCount` and
`newAverage = ((oldAverage * oldCount) - oldUserRating + newUserRating) / oldCount`. -/
theorem c3_recompute_update_existing (oldAverage : ℚ) (oldCount : ℕ)
    (oldUserRating newUserRating : ℚ) (hc : 1 ≤ oldCount)
    (hu : 0 < oldUserRating) :
    calculateNewAverage oldAverage oldCount oldUserRating newUserRating
        = ((oldAverage * oldCount) - oldUserRating + newUserRating) / oldCount
      ∧ optimisticNewCount oldUserRating oldCount = oldCount := by
  constructor
  · unfold calculateNewAverage
    rw [if_neg (by omega), if_neg (ne_of_gt hu)]
  · unfold optimisticNewCount
    rw [if_neg (ne_of_gt hu)]

/-- Witness for C3 at the spec's own example `(4, 2, 5, 3)`:
the recompute gives average `3` and count `2`. -/
theorem c3_witness :
    calculateNewAverage 4 2 5 3 = 3 ∧ optimisticNewCount 5 2 = 2 := by
  have h := c3_recompute_update_existing 4 2 5 3 (by norm_num) (by norm_num)
  refine ⟨?_, h.2⟩
  rw [h.1]
  norm_num

/-- C9: resubmitting the same rating (`newUserRating == oldUserRating`,
`oldUserRating > 0`, `oldCount >= 1`) returns exactly the old average and
the old count, over exact arithmetic. -/
theorem c9_noop_resubmission (oldAverage : ℚ) (oldCount : ℕ)
    (oldUserRating : ℚ) (hc : 1 ≤ oldCount) (hu : 0 < oldUserRating) :
    calculateNewAverage oldAverage oldCount oldUserRating oldUserRating
        = oldAverage
      ∧ optimisticNewCount oldUserRating oldCount = oldCount := by
  have hc0 : ((oldCount : ℚ)) ≠ 0 := Nat.cast_ne_zero.mpr (by omega)
  constructor
  · unfold calculateNewAverage
    rw [if_neg (by omega), if_neg (ne_of_gt hu)]
    field_simp
  · unfold optimisticNewCount
    rw [if_neg (ne_of_gt hu)]

/-- Witness for C9 at `(oldAverage, oldCount, oldUserRating) = (4, 2, 5)`. -/
theorem c9_witness :
    calculateNewAverage 4 2 5 5 = 4 ∧ optimisticNewCount 5 2 = 2 :=
  c9_noop_resubmission 4 2 5 (by norm_num) (by norm_num)

/-- C8 counterexample: at `(oldAverage, oldCount, oldUserRating,
newUserRating) = (4, 0, 2, 3)` the code returns average `3` (Case A, as
the claim says) but count `0`, not the claimed `1`: `wasFirstRating` is
false because `currentRating = 2 ≠ 0`, so `newCount = ratingCount = 0`. -/
theorem c8_counterexample :
    calculateNewAverage 4 0 2 3 = 3 ∧ optimisticNewCount 2 0 = 0
      ∧ optimisticNewCount 2 0 ≠ 1 := by
  refine ⟨by decide, by decide, by decide⟩

/-- C8 amended: for every input with `oldUserRating > 0` and
`oldCount == 0`, the recompute returns `newAverage = newUserRating`
(treated as Case A by `calculateNewAverage`) but `newCount = 0 = oldCount`
(the count keeps the Case C branch, since the user had a prior rating). -/
theorem c8_amended_defensive_case (oldAverage : ℚ)
    (oldUserRating newUserRating : ℚ) (hu : 0 < oldUserRating) :
    calculateNewAverage oldAverage 0 oldUserRating newUserRating
        = newUserRating
      ∧ optimisticNewCount oldUserRating 0 = 0 := by
  constructor
  · unfold calculateNewAverage
    rw [if_pos rfl]
  · unfold optimisticNewCount
    rw [if_neg (ne_of_gt hu)]

/-- Witness for the amended C8 at `(4, 0, 2, 3)`. -/
theorem c8_amended_witness :
    calculateNewAverage 4 0 2 3 = 3 ∧ optimisticNewCount 2 0 = 0 :=
  c8_amended_defensive_case 4 2 3 (by norm_num)

/-- Any member of an updated songs array whose id is the updated id carries
exactly the pushed rating triple. -/
theorem mem_updateSongInArray_id_eq {songId : String} {r a : ℚ} {c : ℕ}
    {arr : List Song} {s : Song}
    (hs : s ∈ updateSongInArray songId r a c arr) (hid : s.id = songId) :
    s.user_rating = some r ∧ s.average_rating = a ∧ s.rating_count = c := by
  unfold updateSongInArray at hs
  rcases List.mem_map.mp hs with ⟨t, _, rfl⟩
  unfold applyRatingToSong at hid ⊢
  by_cases h : t.id = songId
  · rw [if_pos h]
    exact ⟨rfl, rfl, rfl⟩
  · rw [if_neg h] at hid
    exact absurd hid h

/-- C1: after the optimistic fan-out of `handleRatingSuccess` for song `S`
with values `(newUserRating, newAverage, newCount)`, every currently-held
view of `S` — every table row (sorted and raw) held by `useSongs` and the
search result held by `useSearch` — reports the identical triple
`user_rating = newUserRating`, `average_rating = newAverage`,
`rating_count = newCount`. -/
theorem c1_rating_propagation (songId : String) (newUserRating newAverage : ℚ)
    (newCount : ℕ) (st : ViewsState) :
    (∀ s ∈ (handleRatingSuccess songId newUserRating newAverage newCount st).table.songs,
        s.id = songId → s.user_rating = some newUserRating
          ∧ s.average_rating = newAverage ∧ s.rating_count = newCount)
  ∧ (∀ s ∈ (handleRatingSuccess songId newUserRating newAverage newCount st).table.rawSongs,
        s.id = songId → s.user_rating = some newUserRating
          ∧ s.average_rating = newAverage ∧ s.rating_count = newCount)
  ∧ (∀ s, (handleRatingSuccess songId newUserRating newAverage newCount st).searchResult
        = some s → s.id = songId → s.user_rating = some newUserRating
          ∧ s.average_rating = newAverage ∧ s.rating_count = newCount) := by
  refine ⟨fun s hs hid => mem_updateSongInArray_id_eq hs hid,
          fun s hs hid => mem_updateSongInArray_id_eq hs hid, ?_⟩
  intro s hsr hid
  have h0 : (handleRatingSuccess songId newUserRating newAverage newCount st).searchResult
      = updateSearchResult songId newUserRating newAverage newCount st.searchResult := rfl
  rw [h0] at hsr
  cases hst : st.searchResult with
  | none =>
      rw [hst] at hsr
      cases hsr
  | some prev =>
      rw [hst] at hsr
      simp only [updateSearchResult] at hsr
      by_cases h : prev.id = songId
      · rw [if_pos h] at hsr
        cases hsr
        exact ⟨rfl, rfl, rfl⟩
      · rw [if_neg h] at hsr
        cases hsr
        exact absurd hid h

/-- Witness for C1: after pushing `(5, 4, 3)` for song `"s1"` into the
concrete state `views0` (which holds `"s1"` as a table row twice and as the
search result), the held search result reports exactly that triple. -/
theorem c1_witness :
    ∃ s, (handleRatingSuccess "s1" 5 4 3 views0).searchResult = some s
      ∧ s.user_rating = some 5 ∧ s.average_rating = 4 ∧ s.rating_count = 3 := by
  have h := c1_rating_propagation "s1" 5 4 3 views0
  refine ⟨mkSong "s1" "Cold" (some 5) 4 3, by decide, ?_⟩
  exact h.2.2 (mkSong "s1" "Cold" (some 5) 4 3) (by decide) (by decide)

/-- C4 counterexample: a `RatingMutation` with value `0` is NOT rejected —
the guard `ratingValue < 0 || ratingValue > 5` in `rating` accepts `0`,
issues the remote rate call with value `0`, reports success and leaves the
error channel empty, contradicting the claimed `ValidationError`
rejection. -/
theorem c4_counterexample :
    (ratingCall "s1" 0 .ok).remoteCall = some ("s1", 0)
  ∧ (ratingCall "s1" 0 .ok).ratingError = none
  ∧ (ratingCall "s1" 0 .ok).success = true := by
  decide

/-- C4 amended: `5.5` is rejected with the validation error message and no
remote call is issued; `3.5` is accepted and passed to the remote rate
call; and `0` is likewise accepted and passed to the remote rate call —
the guard only rejects values below `0` or above `5`. -/
theorem c4_amended_boundary :
    ((ratingCall "s1" (11/2) .ok).remoteCall = none
      ∧ (ratingCall "s1" (11/2) .ok).ratingError
          = some "Rating must be between 0 and 5"
      ∧ (ratingCall "s1" (11/2) .ok).success = false)
  ∧ ((ratingCall "s1" (7/2) .ok).remoteCall = some ("s1", 7/2)
      ∧ (ratingCall "s1" (7/2) .ok).success = true)
  ∧ ((ratingCall "s1" 0 .ok).remoteCall = some ("s1", 0)
      ∧ (ratingCall "s1" 0 .ok).success = true) := by
  have h55 : ratingCall "s1" (11/2) .ok
      = { success := false
          ratingError := some "Rating must be between 0 and 5"
          remoteCall := none } := by
    unfold ratingCall
    rw [if_pos (by norm_num)]
  have h35 : ratingCall "s1" (7/2) .ok
      = { success := true, ratingError := none, remoteCall := some ("s1", 7/2) } := by
    unfold ratingCall
    rw [if_neg (by norm_num)]
  have h0 : ratingCall "s1" 0 .ok
      = { success := true, ratingError := none, remoteCall := some ("s1", 0) } := by
    unfold ratingCall
    rw [if_neg (by norm_num)]
  rw [h55, h35, h0]
  exact ⟨⟨rfl, rfl, rfl⟩, ⟨rfl, rfl⟩, rfl, rfl⟩

/-- C5 counterexample: the mutation value `-1` fails the range validation
and is rejected with the validation error and no remote call — but the
client-held views HAVE been touched: the search result held in `views1`
(song `"s3"`, previously unrated) now carries `user_rating = some (-1)`.
The optimistic fan-out of `handleRatingChange` runs before `rating`
validates. -/
theorem c5_counterexample :
    ((handleRatingChange false true false "s3" 0 0 0 (some (-1)) views1 .ok).call
        = some { success := false
                 ratingError := some "Rating must be between 0 and 5"
                 remoteCall := none })
  ∧ (handleRatingChange false true false "s3" 0 0 0 (some (-1)) views1 .ok).views.searchResult
        ≠ views1.searchResult := by
  decide

/-- C5 amended: a mutation whose value fails the code's range validation
(`v < 0` or `v > 5`) is rejected with `ValidationError` and no remote call
is issued — but only after the optimistic fan-out has already run: every
client-held view of the song has been updated with the optimistic triple
before the validation inside `rating` rejects. -/
theorem c5_amended_reject_after_fanout (songId : String)
    (currentRating averageRating : ℚ) (ratingCount : ℕ) (v : ℚ)
    (st : ViewsState) (outcome : RemoteOutcome) (hv : v < 0 ∨ v > 5) :
    handleRatingChange false true false songId currentRating averageRating
        ratingCount (some v) st outcome
      = { views := handleRatingSuccess songId v
            (calculateNewAverage averageRating ratingCount currentRating v)
            (optimisticNewCount currentRating ratingCount) st
          call := some { success := false
                         ratingError := some "Rating must be between 0 and 5"
                         remoteCall := none } } := by
  have h1 : handleRatingChange false true false songId currentRating averageRating
      ratingCount (some v) st outcome
      = { views := handleRatingSuccess songId v
            (calculateNewAverage averageRating ratingCount currentRating v)
            (optimisticNewCount currentRating ratingCount) st
          call := some (ratingCall songId v outcome) } := rfl
  rw [h1]
  unfold ratingCall
  rw [if_pos hv]

/-- Witness for the amended C5 at the concrete rejected value `-1` on
`views1`. -/
theorem c5_amended_witness :
    handleRatingChange false true false "s3" 0 0 0 (some (-1)) views1 .ok
      = { views := handleRatingSuccess "s3" (-1)
            (calculateNewAverage 0 0 0 (-1)) (optimisticNewCount 0 0) views1
          call := some { success := false
                         ratingError := some "Rating must be between 0 and 5"
                         remoteCall := none } } :=
  c5_amended_reject_after_fanout "s3" 0 0 0 (-1) views1 .ok (by norm_num)

/-- C6: when the remote rating call for an already-applied optimistic
mutation fails — it throws, or resolves without a usable `rating` field —
the optimistic projection values are left in place (the final views are
exactly the optimistic fan-out state; nothing is reverted) and the failure
is reported via `ratingError`, the remote call having been issued. -/
theorem c6_no_revert_on_failure (songId : String)
    (currentRating averageRating : ℚ) (ratingCount : ℕ) (v : ℚ)
    (st : ViewsState) (outcome : RemoteOutcome)
    (hv : ¬(v < 0 ∨ v > 5)) (hout : outcome ≠ .ok) :
    (handleRatingChange false true false songId currentRating averageRating
        ratingCount (some v) st outcome).views
      = handleRatingSuccess songId v
          (calculateNewAverage averageRating ratingCount currentRating v)
          (optimisticNewCount currentRating ratingCount) st
  ∧ ∃ msg, (handleRatingChange false true false songId currentRating averageRating
        ratingCount (some v) st outcome).call
      = some { success := false
               ratingError := some msg
               remoteCall := some (songId, v) } := by
  refine ⟨rfl, ?_⟩
  have h1 : (handleRatingChange false true false songId currentRating averageRating
      ratingCount (some v) st outcome).call = some (ratingCall songId v outcome) := rfl
  rw [h1]
  unfold ratingCall
  rw [if_neg hv]
  cases outcome with
  | ok => exact absurd rfl hout
  | invalidResponse => exact ⟨"Invalid response from server", rfl⟩
  | failure detail => exact ⟨detail.getD "Failed to rate song", rfl⟩

/-- Witness for C6: rating `"s3"` with the valid value `5` on `views1`
while the remote call throws leaves the optimistic views in place and
reports an error. -/
theorem c6_witness :
    (handleRatingChange false true false "s3" 0 0 0 (some 5) views1
        (.failure none)).views
      = handleRatingSuccess "s3" 5 (calculateNewAverage 0 0 0 5)
          (optimisticNewCount 0 0) views1
  ∧ ∃ msg, (handleRatingChange false true false "s3" 0 0 0 (some 5) views1
        (.failure none)).call
      = some { success := false
               ratingError := some msg
               remoteCall := some ("s3", 5) } :=
  c6_no_revert_on_failure "s3" 0 0 0 5 views1 (.failure none)
    (by norm_num) (by decide)

/-- C7 (code bug at the failing interleaving): dispatch a suggestion lookup
for `"a"`, then dispatch one for `"ab"` before the first resolves; when the
`"ab"` lookup resolves first and the stale `"a"` lookup resolves last, the
displayed suggestions are those of `"a"` (here `[song1]`) although the
input — and the claim — require those of `"ab"` (`[song2]`): the
resolution handler `setSearchSuggestions(results.slice(0, 5))` writes
unconditionally, with no correlation of responses to the query that
produced them. -/
theorem c7_stale_lookup_overwrites :
    ((sugRun { searchTerm := "", pendingLookups := [], searchSuggestions := [] }
        [.dispatch "a", .dispatch "ab",
         .resolve "ab" [song2], .resolve "a" [song1]]).searchTerm = "ab")
  ∧ ((sugRun { searchTerm := "", pendingLookups := [], searchSuggestions := [] }
        [.dispatch "a", .dispatch "ab",
         .resolve "ab" [song2], .resolve "a" [song1]]).searchSuggestions = [song1])
  ∧ song1 ≠ song2 := by
  decide

/-- C10: `updateSongRating` and `updateSearchResult` are pure keyed frame
updates.  Element-wise on any songs array: a song whose id differs from
`songId` is returned completely unchanged, and the song whose id equals
`songId` is the spread copy in which exactly `user_rating`,
`average_rating` and `rating_count` are overwritten (every other field is
preserved by the record update).  If no held song has id `songId` the
array is left entirely unchanged.  `updateSongRating` is exactly this map
on both held lists, and `updateSearchResult` behaves the same way on the
optional search result, including leaving `none` unchanged. -/
theorem c10_keyed_frame_update (songId : String) (r a : ℚ) (c : ℕ)
    (arr : List Song) (st : SongsState) (res : Option Song) :
    List.Forall₂ (fun pre post =>
        (pre.id = songId →
            post = { pre with
                       user_rating := some r
                       average_rating := a
                       rating_count := c })
        ∧ (pre.id ≠ songId → post = pre))
      arr (updateSongInArray songId r a c arr)
  ∧ ((∀ s ∈ arr, s.id ≠ songId) → updateSongInArray songId r a c arr = arr)
  ∧ (updateSongRating songId r a c st
      = { rawSongs := updateSongInArray songId r a c st.rawSongs
          songs := updateSongInArray songId r a c st.songs })
  ∧ (res = none → updateSearchResult songId r a c res = none)
  ∧ (∀ s, res = some s → s.id = songId →
        updateSearchResult songId r a c res
          = some { s with
                     user_rating := some r
                     average_rating := a
                     rating_count := c })
  ∧ (∀ s, res = some s → s.id ≠ songId →
        updateSearchResult songId r a c res = res) := by
  refine ⟨?_, ?_, rfl, ?_, ?_, ?_⟩
  · unfold updateSongInArray
    induction arr with
    | nil => exact List.Forall₂.nil
    | cons hd tl ih =>
        rw [List.map_cons]
        refine List.Forall₂.cons ⟨?_, ?_⟩ ih
        · intro h
          unfold applyRatingToSong
          rw [if_pos h]
        · intro h
          unfold applyRatingToSong
          rw [if_neg h]
  · unfold updateSongInArray
    induction arr with
    | nil => intro _; rfl
    | cons hd tl ih =>
        intro hnone
        rw [List.map_cons]
        have h1 : applyRatingToSong songId r a c hd = hd := by
          unfold applyRatingToSong
          rw [if_neg (hnone hd (List.mem_cons_self hd tl))]
        rw [h1, ih (fun s hs => hnone s (List.mem_cons_of_mem hd hs))]
  · intro h
    rw [h]
    rfl
  · intro s h hid
    rw [h]
    simp only [updateSearchResult]
    rw [if_pos hid]
  · intro s h hid
    rw [h]
    simp only [updateSearchResult]
    rw [if_neg hid]

/-- Witness for C10: updating an absent id leaves the concrete table
unchanged, and updating the held search result `song1` overwrites exactly
the three rating fields. -/
theorem c10_witness :
    updateSongInArray "nope" 5 4 3 [song1, song2] = [song1, song2]
  ∧ updateSearchResult "s1" 5 4 3 (some song1)
      = some { song1 with
                 user_rating := some 5
                 average_rating := 4
                 rating_count := 3 } := by
  have h1 := c10_keyed_frame_update "nope" 5 4 3 [song1, song2]
    views0.table (some song1)
  have h2 := c10_keyed_frame_update "s1" 5 4 3 [song1, song2]
    views0.table (some song1)
  exact ⟨h1.2.1 (by decide), h2.2.2.2.2.1 song1 rfl (by decide)⟩

end MusicRec
